import Mathlib

/-!
Verification of the session persistence and recovery core of the
Time-tracker repository (two near-duplicate scripts, `Time-tracker.py`
and `main.py`), shallowly embedded in Lean.

Timestamps and accumulated durations are modelled as integers (seconds);
the Python code uses `datetime` arithmetic and floats, but every claim
here concerns whole-second arithmetic, additions and comparisons, which
coincide.  The durable session file is modelled as a `StoredFile`: either
missing, unparseable (`malformed`, covering unreadable files and JSON
syntax errors), or a parsed JSON object whose three documented fields may
each individually be missing or ill-typed — exactly the failure points of
the Python field-extraction code (`data['start_time']` raising `KeyError`,
`datetime.fromisoformat` raising on `None` or on a bad string).
-/

namespace TimeTracker

/-- In-memory tracker state: the three instance attributes set in
`TimeTracker.__init__` of both scripts. -/
structure TrackerState where
  start_time : Option Int
  total_seconds : Int
  is_running : Bool
  deriving Repr, DecidableEq

/-- The state both constructors establish before calling `load_session`. -/
def initState : TrackerState := ⟨none, 0, false⟩

/-- The `start_time` field of a parsed session record.  `absent` means the
key is missing (`KeyError`), `null` is JSON `null` (`fromisoformat` raises
`TypeError` on it in `Time-tracker.py`; `main.py` short-circuits it to
`None`), `badstr` is a string `fromisoformat` rejects (`ValueError`). -/
inductive StartField where
  | absent
  | null
  | badstr
  | time (t : Int)
  deriving Repr, DecidableEq

/-- A parsed JSON session record; `none` in a field means the key is
missing, so reading it raises `KeyError`. -/
structure RawRecord where
  start_time : StartField
  total_seconds : Option Int
  is_running : Option Bool
  deriving Repr, DecidableEq

/-- Contents of the durable session file `current_session.json`. -/
inductive StoredFile where
  | missing
  | malformed
  | record (r : RawRecord)
  deriving Repr, DecidableEq

/-- Serialisation performed by `save_session` (identical in both scripts):
`start_time` is the ISO string, or JSON `null` when the attribute is
`None`; the other two fields are written as-is. -/
def storedOfTracker (t : TrackerState) : StoredFile :=
  .record
    { start_time := match t.start_time with
        | none => .null
        | some ts => .time ts
      total_seconds := some t.total_seconds
      is_running := some t.is_running }

/-- `TimeTracker.load_session` of `Time-tracker.py` (lines 33–50).  The
body runs inside `try/except`, and the three attribute assignments happen
in source order, so an extraction failure keeps every assignment already
made: `fromisoformat(data['start_time'])` raises on a missing key, on
`null` and on a bad string, before anything is assigned; a missing
`total_seconds` key raises after `start_time` was assigned; a missing
`is_running` key raises after both.  When `is_running` loads as true the
recovery branch adds `now - start_time` to `total_seconds` and re-anchors
`start_time` to `now`.  Nothing is written back to the file. -/
def loadTT (file : StoredFile) (now : Int) (s : TrackerState) : TrackerState :=
  match file with
  | .missing => s
  | .malformed => s
  | .record r =>
    match r.start_time with
    | .time st =>
      let s1 : TrackerState := { s with start_time := some st }
      match r.total_seconds with
      | none => s1
      | some tot =>
        let s2 : TrackerState := { s1 with total_seconds := tot }
        match r.is_running with
        | none => s2
        | some b =>
          let s3 : TrackerState := { s2 with is_running := b }
          if b then
            { s3 with total_seconds := tot + (now - st), start_time := some now }
          else s3
    | _ => s

/-- `TimeTracker.load_session` of `main.py` (lines 29–49).  Differences
from `Time-tracker.py`: a `null` `start_time` is accepted and assigned as
`None` rather than raising, and the recovery branch additionally requires
`self.start_time` to be truthy (`if self.is_running and self.start_time`).
A missing key or a bad ISO string still raises and is swallowed by
`except Exception: pass`, keeping assignments already made. -/
def loadMain (file : StoredFile) (now : Int) (s : TrackerState) : TrackerState :=
  match file with
  | .missing => s
  | .malformed => s
  | .record r =>
    match r.start_time with
    | .absent => s
    | .badstr => s
    | .null =>
      let s1 : TrackerState := { s with start_time := none }
      match r.total_seconds with
      | none => s1
      | some tot =>
        let s2 : TrackerState := { s1 with total_seconds := tot }
        match r.is_running with
        | none => s2
        | some b => { s2 with is_running := b }
    | .time st =>
      let s1 : TrackerState := { s with start_time := some st }
      match r.total_seconds with
      | none => s1
      | some tot =>
        let s2 : TrackerState := { s1 with total_seconds := tot }
        match r.is_running with
        | none => s2
        | some b =>
          let s3 : TrackerState := { s2 with is_running := b }
          if b then
            { s3 with total_seconds := tot + (now - st), start_time := some now }
          else s3

/-- One entry of `history.json`, appended by `save_to_history`. -/
structure HistEntry where
  date : Int
  duration_seconds : Int
  deriving Repr, DecidableEq

/-- Whole-system state of the `Time-tracker.py` variant: the in-memory
tracker, the durable session file, the append-only `history.json` ledger
(absent file read as the empty list), and the per-day `coding_time.txt`
lines used by the `main.py` variant. -/
structure Sys where
  tracker : TrackerState
  sessionFile : StoredFile
  history : List HistEntry
  daily : List String
  deriving Repr, DecidableEq

/-- `TimeTracker.save_to_history` (`Time-tracker.py` lines 92–106): read
the ledger, and only when `self.total_seconds > 0` append one record
carrying the current date and the current (cumulative) `total_seconds`,
then write the whole ledger back. -/
def save_to_history (now : Int) (total : Int) (history : List HistEntry) :
    List HistEntry :=
  if 0 < total then history ++ [⟨now, total⟩] else history

/-- `TimeTracker.start` (both scripts): from a non-running state, set
`start_time = now`, set `is_running`, and persist; a silent no-op while
running. -/
def startOp (now : Int) (s : Sys) : Sys :=
  if s.tracker.is_running then s
  else
    let tr : TrackerState :=
      { s.tracker with start_time := some now, is_running := true }
    { s with tracker := tr, sessionFile := storedOfTracker tr }

/-- `TimeTracker.stop` of `Time-tracker.py` (lines 69–76): while running,
add `now - start_time` to `total_seconds`, clear `is_running`, persist the
session, then `save_to_history`.  `datetime.now() - self.start_time`
raises (uncaught) when `start_time` is `None`, modelled as `none`.
A no-op while stopped. -/
def stopTT (now : Int) (s : Sys) : Option Sys :=
  if s.tracker.is_running then
    match s.tracker.start_time with
    | none => none
    | some st =>
      let tr : TrackerState :=
        { s.tracker with
            total_seconds := s.tracker.total_seconds + (now - st)
            is_running := false }
      some { s with
              tracker := tr
              sessionFile := storedOfTracker tr
              history := save_to_history now tr.total_seconds s.history }
  else some s

/-- `TimeTracker.reset_session` (`Time-tracker.py` lines 184–190): clear
the three attributes and unlink the session file; history and the daily
file are untouched. -/
def reset_session (s : Sys) : Sys :=
  { s with tracker := ⟨none, 0, false⟩, sessionFile := .missing }

/-- `TimeTracker.get_current_time` (`Time-tracker.py`): `total_seconds`
plus the live interval when running.  `none` models the uncaught error of
subtracting a `None` start time. -/
def get_current_time (now : Int) (t : TrackerState) : Option Int :=
  if t.is_running then
    t.start_time.map (fun st => t.total_seconds + (now - st))
  else some t.total_seconds

/-- `load_session` acting on the whole system: the file is only read,
never written. -/
def loadOpTT (now : Int) (s : Sys) : Sys :=
  { s with tracker := loadTT s.sessionFile now s.tracker }

/-- `main.py`'s `load_session` acting on the whole system. -/
def loadOpMain (now : Int) (s : Sys) : Sys :=
  { s with tracker := loadMain s.sessionFile now s.tracker }

/-- The spec's session-state invariant: a running tracker has a start
time. -/
def inv (t : TrackerState) : Prop :=
  t.is_running = true → t.start_time ≠ none

instance (t : TrackerState) : Decidable (inv t) := by
  unfold inv; infer_instance

/-- Decimal digits of a natural number, most significant first, with
explicit recursion fuel (any fuel exceeding the value suffices): the
rendering Python's `str`/`f"{h}"` performs. -/
def natDigitsAux : Nat → Nat → List Char
  | 0, _ => []
  | fuel + 1, n =>
    if n < 10 then [Char.ofNat (48 + n)]
    else natDigitsAux fuel (n / 10) ++ [Char.ofNat (48 + n % 10)]

/-- Decimal digits of a natural number, most significant first. -/
def natDigits (n : Nat) : List Char := natDigitsAux (n + 1) n

/-- Decimal string of a natural number. -/
def decStr (n : Nat) : String := String.mk (natDigits n)

/-- Python's `f"{h:02d}"` on a non-negative integer: the decimal string,
left-padded with zeros to width two. -/
def pad2 (n : Nat) : String := if n < 10 then "0" ++ decStr n else decStr n

/-- `TimeTracker.format_time` (`Time-tracker.py` lines 85–90) and the
identical `TimeTracker.format_hms` (`main.py` lines 79–84), on a
non-negative whole number of seconds: `HH:MM:SS` with each field
zero-padded to width two.  Python's `int(seconds // 3600)`,
`int((seconds % 3600) // 60)` and `int(seconds % 60)` agree with natural
division and remainder on non-negative integers. -/
def format_time (seconds : Nat) : String :=
  pad2 (seconds / 3600) ++ ":" ++ pad2 (seconds % 3600 / 60) ++ ":" ++
    pad2 (seconds % 60)

/-- `TimeTracker.format_daily` (`main.py`): `Hhr Mmin`, unpadded. -/
def format_daily (seconds : Nat) : String :=
  decStr (seconds / 3600) ++ "hr " ++ decStr (seconds % 3600 / 60) ++ "min"

/-- Python's `line.startswith(today)`. -/
def charsStart : List Char → List Char → Bool
  | [], _ => true
  | _ :: _, [] => false
  | a :: as, b :: bs => a == b && charsStart as bs

/-- `startswith` on strings. -/
def strStarts (pre line : String) : Bool := charsStart pre.data line.data

/-- The daily-file line `write_daily_time` renders for the day key
`today` (the `"%d/%m/%y"` date) and the cumulative total, already
stripped of its trailing newline as the code does before storing it. -/
def dailyEntry (today : String) (total : Int) : String :=
  today ++ " - " ++ format_daily total.toNat

/-- The scan-and-replace loop of `write_daily_time`: replace the first
line starting with `today` (then `break`), else append the entry at the
end. -/
def upsertLine (today entry : String) : List String → List String
  | [] => [entry]
  | l :: ls =>
    if strStarts today l then entry :: ls else l :: upsertLine today entry ls

/-- `TimeTracker.write_daily_time` (`main.py` lines 92–113): return
unchanged when `total_seconds <= 0`; otherwise upsert today's line,
keyed by `line.startswith(today)`, into the daily file's lines. -/
def write_daily_time (today : String) (total : Int) (lines : List String) :
    List String :=
  if total ≤ 0 then lines else upsertLine today (dailyEntry today total) lines

/-- `TimeTracker.stop` of `main.py` (identical to `Time-tracker.py`'s
except that it ends with `write_daily_time` instead of
`save_to_history`).  `today` is the rendered current date. -/
def stopMain (now : Int) (today : String) (s : Sys) : Option Sys :=
  if s.tracker.is_running then
    match s.tracker.start_time with
    | none => none
    | some st =>
      let tr : TrackerState :=
        { s.tracker with
            total_seconds := s.tracker.total_seconds + (now - st)
            is_running := false }
      some { s with
              tracker := tr
              sessionFile := storedOfTracker tr
              daily := write_daily_time today tr.total_seconds s.daily }
  else some s

/-- A session record that does not pair `is_running = true` with a `null`
`start_time` (the combination `main.py`'s loader mishandles). -/
def goodRec : StoredFile → Prop
  | .record r => ¬(r.start_time = .null ∧ r.is_running = some true)
  | _ => True

instance (f : StoredFile) : Decidable (goodRec f) := by
  cases f <;> simp only [goodRec] <;> infer_instance

/-- A concrete system whose durable record holds a running session that
started at time 0 with 5 accumulated seconds. -/
def c1sys : Sys := ⟨initState, .record ⟨.time 0, some 5, some true⟩, [], []⟩

/-- Claim C1, as stated, is false: recovery of a running persisted
session updates the in-memory tracker but writes nothing back, so after
`load_session` the durable record does not hold the updated state. -/
theorem c1_counterexample :
    (loadOpTT 30 c1sys).sessionFile ≠
      storedOfTracker (loadOpTT 30 c1sys).tracker := by decide

/-- Claim C1 (amended): for every loaded session record with
`is_running = true` and a parseable `start_time`, both scripts' recovery
branch adds `now - start_time` to `total_seconds` and re-anchors
`start_time = now`, but does NOT re-persist: the durable session record
is unchanged on return, only updated by a later save. -/
theorem c1_recover_amended (now t tot : Int) (r : RawRecord) (s : Sys)
    (hr : s.sessionFile = .record r) (hst : r.start_time = .time t)
    (htot : r.total_seconds = some tot) (hrun : r.is_running = some true) :
    (loadOpTT now s).tracker.total_seconds = tot + (now - t) ∧
    (loadOpTT now s).tracker.start_time = some now ∧
    (loadOpTT now s).tracker.is_running = true ∧
    (loadOpTT now s).sessionFile = s.sessionFile ∧
    (loadOpMain now s).tracker.total_seconds = tot + (now - t) ∧
    (loadOpMain now s).tracker.start_time = some now ∧
    (loadOpMain now s).tracker.is_running = true ∧
    (loadOpMain now s).sessionFile = s.sessionFile := by
  obtain ⟨rst, rtot, rrun⟩ := r
  cases hst; cases htot; cases hrun
  refine ⟨?_, ?_, ?_, rfl, ?_, ?_, ?_, rfl⟩ <;>
    simp [loadOpTT, loadOpMain, loadTT, loadMain, hr]

/-- Witness for C1 at `c1sys` with `now = 30`. -/
theorem c1_recover_amended_witness :
    c1sys.sessionFile = .record ⟨.time 0, some 5, some true⟩ ∧
    ((loadOpTT 30 c1sys).tracker.total_seconds = 5 + (30 - 0) ∧
     (loadOpTT 30 c1sys).tracker.start_time = some 30 ∧
     (loadOpTT 30 c1sys).tracker.is_running = true ∧
     (loadOpTT 30 c1sys).sessionFile = c1sys.sessionFile ∧
     (loadOpMain 30 c1sys).tracker.total_seconds = 5 + (30 - 0) ∧
     (loadOpMain 30 c1sys).tracker.start_time = some 30 ∧
     (loadOpMain 30 c1sys).tracker.is_running = true ∧
     (loadOpMain 30 c1sys).sessionFile = c1sys.sessionFile) :=
  ⟨rfl, c1_recover_amended 30 0 5 ⟨.time 0, some 5, some true⟩ c1sys rfl rfl rfl rfl⟩

/-- Claim C4: the code is wrong.  `save_session` writes a stopped state
with no start time as `start_time = null`; `Time-tracker.py`'s
`load_session` then calls `datetime.fromisoformat(None)`, which raises,
the `except` swallows it, and every field keeps its `__init__` default —
so the persisted `total_seconds = 100` is silently lost (the tracker
reopens at 0).  `main.py` guards the `null` and restores the 100 seconds,
which is what the spec requires of both. -/
theorem c4_total_lost_on_reload :
    loadTT (storedOfTracker ⟨none, 100, false⟩) 50 initState = initState ∧
    initState.total_seconds = 0 ∧
    loadMain (storedOfTracker ⟨none, 100, false⟩) 50 initState =
      ⟨none, 100, false⟩ := by decide

/-- Claim C5, as stated, is false: a parsed record missing only its
`is_running` key raises `KeyError` after `start_time` and `total_seconds`
were already assigned, so the swallowed exception leaves a partially
loaded state, not the no-prior-session state. -/
theorem c5_counterexample :
    loadTT (.record ⟨.time 7, some 5, none⟩) 100 initState =
      ⟨some 7, 5, false⟩ ∧
    (⟨some 7, 5, false⟩ : TrackerState) ≠ initState := by decide

/-- Claim C5 (amended): `load_session` never raises (every exception in
its body is caught — the embedding is a total function), and a missing or
unparseable record leaves the fresh no-prior-session state in both
scripts; but a record that parses and then fails during field extraction
keeps the fields assigned before the failure, so only the missing and
unparseable cases behave exactly as if the record were absent. -/
theorem c5_load_fails_soft (now : Int) :
    loadTT .missing now initState = initState ∧
    loadTT .malformed now initState = initState ∧
    loadMain .missing now initState = initState ∧
    loadMain .malformed now initState = initState :=
  ⟨rfl, rfl, rfl, rfl⟩

/-- Claim C8: `reset_session` yields zero elapsed time, a non-running
tracker with no start time, removes the durable session record, and
leaves the history ledger (and the daily file) untouched. -/
theorem c8_reset_clears (s : Sys) (now : Int) :
    get_current_time now (reset_session s).tracker = some 0 ∧
    (reset_session s).tracker.is_running = false ∧
    (reset_session s).tracker.start_time = none ∧
    (reset_session s).sessionFile = .missing ∧
    (reset_session s).history = s.history ∧
    (reset_session s).daily = s.daily :=
  ⟨rfl, rfl, rfl, rfl, rfl, rfl⟩

/-- Claim C9: `start()` from a Running state is a silent no-op — the
guard `if not self.is_running` skips the whole body, so neither the
tracker fields nor any file changes. -/
theorem c9_start_idempotent (now : Int) (s : Sys)
    (h : s.tracker.is_running = true) : startOp now s = s := by
  unfold startOp
  rw [h]
  simp

/-- A concrete running system for the C9 witness. -/
def c9sys : Sys := ⟨⟨some 0, 3, true⟩, .missing, [], []⟩

/-- Witness for C9: starting an already-running tracker changes
nothing. -/
theorem c9_start_idempotent_witness :
    c9sys.tracker.is_running = true ∧ startOp 5 c9sys = c9sys :=
  ⟨rfl, c9_start_idempotent 5 c9sys rfl⟩

/-- A system whose durable record claims a running session with a `null`
start time, which `main.py`'s loader accepts field by field. -/
def c2badsys : Sys := ⟨initState, .record ⟨.null, some 5, some true⟩, [], []⟩

/-- Claim C2, as stated, is false: loading the malformed record
`{start_time: null, total_seconds: 5, is_running: true}` in `main.py`
assigns `start_time = None` and `is_running = True` (the recovery guard
`if self.is_running and self.start_time` then skips), ending with a
running tracker that has no start time. -/
theorem c2_counterexample :
    inv c2badsys.tracker ∧
    (loadOpMain 100 c2badsys).tracker.is_running = true ∧
    (loadOpMain 100 c2badsys).tracker.start_time = none := by decide

/-- Claim C2 (amended): `start`, `stop`, `reset` and `Time-tracker.py`'s
`load_session` preserve the invariant (running implies a present start
time) from every state satisfying it and for every stored record; but
`main.py`'s `load_session` preserves it only for records that do not pair
`is_running = true` with a `null` `start_time` — on such a record it
produces a running tracker with no start time (see the
counterexample). It does preserve the invariant at startup (where
`is_running` is still false) for every other record. -/
theorem c2_inv_preserved :
    (∀ (now : Int) (s : Sys), inv s.tracker → inv (startOp now s).tracker) ∧
    (∀ (now : Int) (s s' : Sys), inv s.tracker → stopTT now s = some s' →
        inv s'.tracker) ∧
    (∀ (now : Int) (today : String) (s s' : Sys), inv s.tracker →
        stopMain now today s = some s' → inv s'.tracker) ∧
    (∀ s : Sys, inv (reset_session s).tracker) ∧
    (∀ (now : Int) (s : Sys), inv s.tracker → inv (loadOpTT now s).tracker) ∧
    (∀ (now : Int) (s : Sys), s.tracker.is_running = false →
        goodRec s.sessionFile → inv (loadOpMain now s).tracker) := by
  refine ⟨?_, ?_, ?_, ?_, ?_, ?_⟩
  · intro now s hs
    unfold startOp
    split
    · exact hs
    · simp [inv]
  · intro now s s' hs hstop
    unfold stopTT at hstop
    split at hstop
    · rcases h1 : s.tracker.start_time with _ | st <;> rw [h1] at hstop
      · exact absurd hstop (by simp)
      · cases hstop
        simp [inv]
    · cases hstop
      exact hs
  · intro now today s s' hs hstop
    unfold stopMain at hstop
    split at hstop
    · rcases h1 : s.tracker.start_time with _ | st <;> rw [h1] at hstop
      · exact absurd hstop (by simp)
      · cases hstop
        simp [inv]
    · cases hstop
      exact hs
  · intro s
    simp [inv, reset_session]
  · intro now s hs
    show inv (loadTT s.sessionFile now s.tracker)
    cases hf : s.sessionFile with
    | missing => exact hs
    | malformed => exact hs
    | record r =>
      obtain ⟨rst, rtot, rrun⟩ := r
      cases rst with
      | absent => exact hs
      | null => exact hs
      | badstr => exact hs
      | time t =>
        cases rtot with
        | none => simp [loadTT, inv]
        | some tot =>
          cases rrun with
          | none => simp [loadTT, inv]
          | some b => cases b <;> simp [loadTT, inv]
  · intro now s h0 hg
    show inv (loadMain s.sessionFile now s.tracker)
    revert hg
    cases hf : s.sessionFile with
    | missing => intro _; simp [loadMain, inv, h0]
    | malformed => intro _; simp [loadMain, inv, h0]
    | record r =>
      obtain ⟨rst, rtot, rrun⟩ := r
      intro hg
      cases rst with
      | absent => simp [loadMain, inv, h0]
      | badstr => simp [loadMain, inv, h0]
      | null =>
        cases rtot with
        | none => simp [loadMain, inv, h0]
        | some tot =>
          cases rrun with
          | none => simp [loadMain, inv, h0]
          | some b =>
            cases b
            · simp [loadMain, inv]
            · simp [goodRec] at hg
      | time t =>
        cases rtot with
        | none => simp [loadMain, inv]
        | some tot =>
          cases rrun with
          | none => simp [loadMain, inv]
          | some b => cases b <;> simp [loadMain, inv]

/-- A well-formed running record for the C2 witness. -/
def c2sys : Sys := ⟨initState, .record ⟨.time 2, some 7, some true⟩, [], []⟩

/-- Witness for C2 at a concrete startup load of a well-formed running
record through `main.py`'s loader. -/
theorem c2_inv_preserved_witness :
    c2sys.tracker.is_running = false ∧ goodRec c2sys.sessionFile ∧
    inv (loadOpMain 9 c2sys).tracker :=
  ⟨rfl, by decide, c2_inv_preserved.2.2.2.2.2 9 c2sys rfl (by decide)⟩

/-- The two-session trace for C3: fresh system, start at 0, stop at 5
(session of 5s), start at 10, stop at 13 (session of 3s). -/
def c3trace : Option Sys :=
  (stopTT 5 (startOp 0 ⟨initState, .missing, [], []⟩)).bind
    (fun s => stopTT 13 (startOp 10 s))

/-- Claim C3, as stated, is false: the second `stop()` of the trace ends
a 3-second session (start 10, stop 13), but because `total_seconds` is
never cleared on stop, `save_to_history` appends the cumulative lifetime
total 8, not the session's own 3. -/
theorem c3_counterexample :
    c3trace =
      some ⟨⟨some 10, 8, false⟩, storedOfTracker ⟨some 10, 8, false⟩,
        [⟨5, 5⟩, ⟨13, 8⟩], []⟩ ∧
    (8 : Int) ≠ 13 - 10 := by decide

/-- Claim C3 (amended): every record `stop()` appends carries the
cumulative `total_seconds` at the moment of stopping — the prior
accumulated total plus the final interval, i.e. the sum of all sessions
since the last `reset()` — which equals the single session's interval
only for the first session after a reset (second conjunct). -/
theorem c3_history_cumulative :
    (∀ (now st tot : Int) (s s' : Sys),
        s.tracker.is_running = true → s.tracker.start_time = some st →
        s.tracker.total_seconds = tot → stopTT now s = some s' →
        0 < tot + (now - st) →
        s'.history = s.history ++ [⟨now, tot + (now - st)⟩]) ∧
    (∀ (t0 t1 : Int) (s s' : Sys), 0 < t1 - t0 →
        stopTT t1 (startOp t0 (reset_session s)) = some s' →
        s'.history = s.history ++ [⟨t1, t1 - t0⟩]) := by
  constructor
  · intro now st tot s s' hrun hst htot hstop hpos
    unfold stopTT at hstop
    rw [hrun, hst] at hstop
    simp only [if_true] at hstop
    cases hstop
    simp [save_to_history, htot, hpos]
  · intro t0 t1 s s' hpos hstop
    simp only [reset_session, startOp, stopTT, initState] at hstop
    norm_num at hstop
    cases hstop
    simp [save_to_history, hpos]

/-- The running system for the C3 witness: 5 seconds already
accumulated, current session started at 10. -/
def c3sys : Sys := ⟨⟨some 10, 5, true⟩, .missing, [⟨5, 5⟩], []⟩

/-- The system after `stop(13)` on `c3sys`. -/
def c3sys' : Sys :=
  ⟨⟨some 10, 8, false⟩, storedOfTracker ⟨some 10, 8, false⟩,
    [⟨5, 5⟩, ⟨13, 8⟩], []⟩

/-- Witness for C3 at the concrete stop of `c3sys`. -/
theorem c3_history_cumulative_witness :
    c3sys.tracker.is_running = true ∧ c3sys.tracker.start_time = some 10 ∧
    c3sys.tracker.total_seconds = 5 ∧ stopTT 13 c3sys = some c3sys' ∧
    (0 : Int) < 5 + (13 - 10) ∧
    c3sys'.history = c3sys.history ++ [⟨13, 5 + (13 - 10)⟩] :=
  ⟨rfl, rfl, rfl, by decide, by decide,
    c3_history_cumulative.1 13 10 5 c3sys c3sys' rfl rfl rfl (by decide)
      (by decide)⟩

/-- A stopped system with a positive accumulated total for the C6
counterexample. -/
def c6sys : Sys := ⟨⟨none, 5, false⟩, .missing, [], []⟩

/-- Claim C6, as stated, is false: it quantifies over every tracker
state, but `stop()` while already stopped is a guarded no-op, so a stop
that leaves the positive total 5 appends no record at all (never exactly
one). -/
theorem c6_counterexample :
    stopTT 5 c6sys = some c6sys ∧ 0 < c6sys.tracker.total_seconds ∧
    c6sys.history = [] := by decide

/-- Claim C6 (amended): for a `stop()` taken from the Running state (with
a start time present, so the subtraction succeeds), a final
`total_seconds` of zero appends no record and a positive final total
appends exactly one record — carrying that total — at the end, leaving
every previously appended record unchanged; a `stop()` from the Stopped
state is a no-op and appends nothing. -/
theorem c6_stop_appends (now st : Int) (s s' : Sys)
    (hrun : s.tracker.is_running = true)
    (hst : s.tracker.start_time = some st)
    (hstop : stopTT now s = some s') :
    (s'.tracker.total_seconds = 0 → s'.history = s.history) ∧
    (0 < s'.tracker.total_seconds →
        s'.history = s.history ++ [⟨now, s'.tracker.total_seconds⟩]) := by
  unfold stopTT at hstop
  rw [hrun, hst] at hstop
  simp only [if_true] at hstop
  cases hstop
  constructor
  · intro h0
    simp only at h0
    simp [save_to_history, h0]
  · intro hpos
    simp only at hpos
    simp [save_to_history, hpos]

/-- The running system for the C6 witness. -/
def c6run : Sys := ⟨⟨some 10, 5, true⟩, .missing, [⟨5, 5⟩], []⟩

/-- The system after `stop(13)` on `c6run`. -/
def c6run' : Sys :=
  ⟨⟨some 10, 8, false⟩, storedOfTracker ⟨some 10, 8, false⟩,
    [⟨5, 5⟩, ⟨13, 8⟩], []⟩

/-- Witness for C6 at the concrete stop of `c6run`: the final total 8 is
positive and exactly one record is appended. -/
theorem c6_stop_appends_witness :
    c6run.tracker.is_running = true ∧ c6run.tracker.start_time = some 10 ∧
    stopTT 13 c6run = some c6run' ∧
    (0 < c6run'.tracker.total_seconds →
        c6run'.history = c6run.history ++ [⟨13, c6run'.tracker.total_seconds⟩]) :=
  ⟨rfl, rfl, by decide,
    (c6_stop_appends 13 10 c6run c6run' rfl rfl (by decide)).2⟩

theorem charsStart_append_self (p q : List Char) :
    charsStart p (p ++ q) = true := by
  induction p with
  | nil => rfl
  | cons a as ih => simp [charsStart, ih]

/-- The freshly rendered daily line starts with today's date key, so the
`startswith` scan of a later `write_daily_time` finds it again. -/
theorem strStarts_dailyEntry (today : String) (t : Int) :
    strStarts today (dailyEntry today t) = true := by
  unfold strStarts dailyEntry
  rw [String.data_append, String.data_append, List.append_assoc]
  exact charsStart_append_self _ _

theorem filter_upsertLine_pos (today entry : String)
    (he : strStarts today entry = true) :
    ∀ lines : List String,
      (lines.filter (fun l => strStarts today l)).length ≤ 1 →
      (upsertLine today entry lines).filter (fun l => strStarts today l) =
        [entry] := by
  intro lines
  induction lines with
  | nil => intro _; simp [upsertLine, he]
  | cons l ls ih =>
    intro h
    by_cases hl : strStarts today l
    · rw [List.filter_cons_of_pos (by simpa using hl)] at h
      have hls : ls.filter (fun l => strStarts today l) = [] := by
        refine List.length_eq_zero.mp ?_
        simp only [List.length_cons] at h
        omega
      simp [upsertLine, hl, he, hls]
    · rw [List.filter_cons_of_neg (by simpa using hl)] at h
      simp [upsertLine, hl, ih h]

theorem filter_upsertLine_neg (today entry : String)
    (he : strStarts today entry = true) (lines : List String) :
    (upsertLine today entry lines).filter (fun l => !strStarts today l) =
      lines.filter (fun l => !strStarts today l) := by
  induction lines with
  | nil => simp [upsertLine, he]
  | cons l ls ih =>
    by_cases hl : strStarts today l
    · simp [upsertLine, hl, he]
    · simp [upsertLine, hl, ih]

/-- One `write_daily_time` keeps at most one line for today, rewrites it
to the freshly rendered entry when the total is positive, and never
touches lines for other days. -/
theorem write_daily_filter (today : String) (t : Int) (lines : List String)
    (h : (lines.filter (fun l => strStarts today l)).length ≤ 1) :
    ((write_daily_time today t lines).filter
        (fun l => strStarts today l)).length ≤ 1 ∧
    (0 < t → (write_daily_time today t lines).filter
        (fun l => strStarts today l) = [dailyEntry today t]) ∧
    (write_daily_time today t lines).filter (fun l => !strStarts today l) =
      lines.filter (fun l => !strStarts today l) := by
  unfold write_daily_time
  by_cases hpos : t ≤ 0
  · rw [if_pos hpos]
    exact ⟨h, fun hc => absurd hc (by omega), rfl⟩
  · rw [if_neg hpos]
    have he := strStarts_dailyEntry today t
    refine ⟨?_, fun _ => filter_upsertLine_pos today _ he lines h,
      filter_upsertLine_neg today _ he lines⟩
    rw [filter_upsertLine_pos today _ he lines h]
    simp

/-- `stop()` either no-ops from a stopped state or finalizes the session
and upserts the cumulative total into the daily file. -/
theorem stopMain_cases (now : Int) (today : String) (s s' : Sys)
    (h : stopMain now today s = some s') :
    (s.tracker.is_running = false ∧ s' = s) ∨
    (s'.tracker.is_running = false ∧
      s'.daily = write_daily_time today s'.tracker.total_seconds s.daily) := by
  unfold stopMain at h
  split at h
  · rcases h1 : s.tracker.start_time with _ | st <;> rw [h1] at h
    · exact absurd h (by simp)
    · cases h
      right
      exact ⟨rfl, rfl⟩
  · cases h
    rename_i hne
    exact Or.inl ⟨by simpa using hne, rfl⟩

/-- `start()` from a stopped state starts the clock and leaves the daily
file alone. -/
theorem startOp_not_running (now : Int) (s : Sys)
    (h : s.tracker.is_running = false) :
    (startOp now s).tracker =
      ⟨some now, s.tracker.total_seconds, true⟩ ∧
    (startOp now s).daily = s.daily := by
  unfold startOp
  rw [h]
  exact ⟨rfl, rfl⟩

/-- Claim C7: starting from a daily file with at most one line for
today's key, stopping, restarting and stopping again on the same
calendar day leaves exactly one line for that day — the freshly rendered
entry carrying the later cumulative `total_seconds` — and leaves every
line for another day unchanged. -/
theorem c7_daily_upsert (today : String) (now1 nowS now2 : Int)
    (s s1 s2 : Sys)
    (h1 : (s.daily.filter (fun l => strStarts today l)).length ≤ 1)
    (hstop1 : stopMain now1 today s = some s1)
    (hstop2 : stopMain now2 today (startOp nowS s1) = some s2)
    (hp2 : 0 < s2.tracker.total_seconds) :
    s2.daily.filter (fun l => strStarts today l) =
      [dailyEntry today s2.tracker.total_seconds] ∧
    s2.daily.filter (fun l => !strStarts today l) =
      s.daily.filter (fun l => !strStarts today l) := by
  have hd1 : (s1.daily.filter (fun l => strStarts today l)).length ≤ 1 ∧
      s1.daily.filter (fun l => !strStarts today l) =
        s.daily.filter (fun l => !strStarts today l) ∧
      s1.tracker.is_running = false := by
    rcases stopMain_cases now1 today s s1 hstop1 with ⟨hnr, rfl⟩ | ⟨hnr, hd⟩
    · exact ⟨h1, rfl, hnr⟩
    · obtain ⟨ha, hb, hc⟩ :=
        write_daily_filter today s1.tracker.total_seconds s.daily h1
      rw [hd]
      exact ⟨ha, hc, hnr⟩
  obtain ⟨hlen1, hoth1, hnr1⟩ := hd1
  obtain ⟨htr, hdl⟩ := startOp_not_running nowS s1 hnr1
  rcases stopMain_cases now2 today (startOp nowS s1) s2 hstop2 with
    ⟨hbad, _⟩ | ⟨_, hd2⟩
  · rw [htr] at hbad
    exact absurd hbad (by simp)
  · rw [hd2, hdl]
    obtain ⟨_, hb, hc⟩ :=
      write_daily_filter today s2.tracker.total_seconds s1.daily hlen1
    exact ⟨hb hp2, hc.trans hoth1⟩

/-- A running system whose daily file already has yesterday's line, for
the C7 witness. -/
def c7sys : Sys := ⟨⟨some 0, 0, true⟩, .missing, [], ["11/10/25 - 1hr 0min"]⟩

/-- `c7sys` after `stop(60)` on day `12/10/25`. -/
def c7sys1 : Sys :=
  ⟨⟨some 0, 60, false⟩, storedOfTracker ⟨some 0, 60, false⟩, [],
    ["11/10/25 - 1hr 0min", dailyEntry "12/10/25" 60]⟩

/-- `c7sys1` after `start(100)` and `stop(160)` on the same day. -/
def c7sys2 : Sys :=
  ⟨⟨some 100, 120, false⟩, storedOfTracker ⟨some 100, 120, false⟩, [],
    ["11/10/25 - 1hr 0min", dailyEntry "12/10/25" 120]⟩

/-- Witness for C7: the concrete stop–start–stop day leaves one line for
`12/10/25` with the cumulative 120 seconds and keeps the `11/10/25` line. -/
theorem c7_daily_upsert_witness :
    (c7sys.daily.filter (fun l => strStarts "12/10/25" l)).length ≤ 1 ∧
    stopMain 60 "12/10/25" c7sys = some c7sys1 ∧
    stopMain 160 "12/10/25" (startOp 100 c7sys1) = some c7sys2 ∧
    0 < c7sys2.tracker.total_seconds ∧
    (c7sys2.daily.filter (fun l => strStarts "12/10/25" l) =
        [dailyEntry "12/10/25" c7sys2.tracker.total_seconds] ∧
      c7sys2.daily.filter (fun l => !strStarts "12/10/25" l) =
        c7sys.daily.filter (fun l => !strStarts "12/10/25" l)) :=
  ⟨by decide, by decide, by decide, by decide,
    c7_daily_upsert "12/10/25" 60 100 160 c7sys c7sys1 c7sys2
      (by decide) (by decide) (by decide) (by decide)⟩

/-- Numeric value of a decimal digit string, for reading the rendered
fields back. -/
def decodeDigits (l : List Char) : Nat :=
  List.foldl (fun acc c => 10 * acc + (c.toNat - 48)) 0 l

theorem natDigitsAux_length_pos (fuel n : Nat) (h : 0 < fuel) :
    1 ≤ (natDigitsAux fuel n).length := by
  cases fuel with
  | zero => omega
  | succ f =>
    unfold natDigitsAux
    split <;> simp

theorem isDigit_ofNat (k : Nat) (h : k < 10) :
    (Char.ofNat (48 + k)).isDigit = true := by
  interval_cases k <;> decide

theorem toNat_ofNat_digit (k : Nat) (h : k < 10) :
    (Char.ofNat (48 + k)).toNat = 48 + k := by
  interval_cases k <;> decide

theorem natDigitsAux_isDigit :
    ∀ fuel n : Nat, n < fuel → ∀ c ∈ natDigitsAux fuel n, c.isDigit = true := by
  intro fuel
  induction fuel with
  | zero => intro n h; omega
  | succ f ih =>
    intro n h c hc
    unfold natDigitsAux at hc
    split at hc
    · rename_i h10
      have : c = Char.ofNat (48 + n) := by simpa using hc
      subst this
      exact isDigit_ofNat n h10
    · rename_i h10
      rcases List.mem_append.mp hc with h1 | h2
      · have hdiv : n / 10 < n := Nat.div_lt_self (by omega) (by omega)
        exact ih (n / 10) (by omega) c h1
      · have : c = Char.ofNat (48 + n % 10) := by simpa using h2
        subst this
        exact isDigit_ofNat (n % 10) (Nat.mod_lt _ (by omega))

theorem decode_natDigitsAux :
    ∀ fuel n : Nat, n < fuel → decodeDigits (natDigitsAux fuel n) = n := by
  intro fuel
  induction fuel with
  | zero => intro n h; omega
  | succ f ih =>
    intro n h
    unfold natDigitsAux
    split
    · rename_i h10
      simp only [decodeDigits, List.foldl_cons, List.foldl_nil]
      rw [toNat_ofNat_digit n h10]
      omega
    · rename_i h10
      have hdiv : n / 10 < n := Nat.div_lt_self (by omega) (by omega)
      have ih' := ih (n / 10) (by omega)
      simp only [decodeDigits, List.foldl_append, List.foldl_cons,
        List.foldl_nil] at ih' ⊢
      rw [ih', toNat_ofNat_digit (n % 10) (Nat.mod_lt _ (by omega))]
      omega

theorem natDigits_length_pos (n : Nat) : 1 ≤ (natDigits n).length :=
  natDigitsAux_length_pos (n + 1) n (by omega)

theorem natDigits_length_ge_two (n : Nat) (h : 10 ≤ n) :
    2 ≤ (natDigits n).length := by
  unfold natDigits natDigitsAux
  rw [if_neg (by omega)]
  have := natDigitsAux_length_pos n (n / 10) (by omega)
  simp only [List.length_append, List.length_cons, List.length_nil]
  omega

theorem natDigits_isDigit (n : Nat) : ∀ c ∈ natDigits n, c.isDigit = true :=
  natDigitsAux_isDigit (n + 1) n (by omega)

theorem decode_natDigits (n : Nat) : decodeDigits (natDigits n) = n :=
  decode_natDigitsAux (n + 1) n (by omega)

theorem pad2_length (n : Nat) : 2 ≤ (pad2 n).length := by
  unfold pad2
  have h2 : (decStr n).length = (natDigits n).length := rfl
  split
  · rw [String.length_append]
    have := natDigits_length_pos n
    have h1 : ("0" : String).length = 1 := rfl
    omega
  · have := natDigits_length_ge_two n (by omega)
    omega

theorem pad2_isDigit (n : Nat) : ∀ c ∈ (pad2 n).data, c.isDigit = true := by
  unfold pad2
  split
  · intro c hc
    rw [String.data_append] at hc
    rcases List.mem_append.mp hc with h1 | h2
    · have : c = '0' := by simpa using h1
      subst this
      decide
    · exact natDigits_isDigit n c h2
  · intro c hc
    exact natDigits_isDigit n c hc

theorem decode_pad2 (n : Nat) : decodeDigits (pad2 n).data = n := by
  unfold pad2
  split
  · rw [String.data_append]
    have h0 : ("0" : String).data = ['0'] := rfl
    rw [h0]
    show List.foldl _ _ ('0' :: natDigits n) = n
    simp only [List.foldl_cons]
    have hz : 10 * 0 + ('0'.toNat - 48) = 0 := by decide
    rw [hz]
    exact decode_natDigits n
  · exact decode_natDigits n

/-- Claim C10: on every non-negative whole number of seconds, the time
formatter of both scripts produces `HH:MM:SS` where each field is a
string of decimal digits at least two characters long, the hours field
reads back as `s / 3600`, the minutes field as `s % 3600 / 60` (a value
below 60), and the seconds field as `s % 60` (below 60). -/
theorem c10_format_hms (s : Nat) :
    format_time s =
      pad2 (s / 3600) ++ ":" ++ pad2 (s % 3600 / 60) ++ ":" ++ pad2 (s % 60) ∧
    2 ≤ (pad2 (s / 3600)).length ∧
    2 ≤ (pad2 (s % 3600 / 60)).length ∧
    2 ≤ (pad2 (s % 60)).length ∧
    (∀ c ∈ (pad2 (s / 3600)).data, c.isDigit = true) ∧
    (∀ c ∈ (pad2 (s % 3600 / 60)).data, c.isDigit = true) ∧
    (∀ c ∈ (pad2 (s % 60)).data, c.isDigit = true) ∧
    decodeDigits (pad2 (s / 3600)).data = s / 3600 ∧
    decodeDigits (pad2 (s % 3600 / 60)).data = s % 3600 / 60 ∧
    decodeDigits (pad2 (s % 60)).data = s % 60 ∧
    s % 3600 / 60 < 60 ∧ s % 60 < 60 :=
  ⟨rfl, pad2_length _, pad2_length _, pad2_length _, pad2_isDigit _,
    pad2_isDigit _, pad2_isDigit _, decode_pad2 _, decode_pad2 _,
    decode_pad2 _,
    Nat.div_lt_of_lt_mul (by omega),
    Nat.mod_lt _ (by omega)⟩

end TimeTracker
